import Mathlib

/-!
Shallow embedding of the canonical-ABI boundary codec generated into the
Spin SDKs (C sources under sdk/go, sdk/nim).  Linear memory is modelled as a
byte function `Nat → Nat` (each cell reduced mod 256 on access), pointers and
lengths as natural numbers holding the 32-bit bit pattern, and each generated
wrapper as a pure Lean function translated statement by statement from its C
source.  Uninitialized C locals (the `expected` result structs and unwritten
union members) are modelled by explicit `junk` parameters: whatever the stack
held is passed in, and the theorems quantify over it.
-/

namespace SpinAbi

/-- Linear memory: byte address to cell content; reads reduce mod 256. -/
def Mem : Type := Nat → Nat

/-- Content of one byte of linear memory. -/
def byteAt (m : Mem) (i : Nat) : Nat := m i % 256

/-- `*(uint8_t*)(p)` : one-byte read. -/
def readU8 (m : Mem) (o : Nat) : Nat := byteAt m o

/-- `*(uint16_t*)(p)` : little-endian two-byte read. -/
def readU16 (m : Mem) (o : Nat) : Nat :=
  byteAt m o + 256 * byteAt m (o + 1)

/-- `*(int32_t*)(p)` : little-endian four-byte read (bit pattern as Nat). -/
def readU32 (m : Mem) (o : Nat) : Nat :=
  byteAt m o + 256 * byteAt m (o + 1) + 65536 * byteAt m (o + 2)
    + 16777216 * byteAt m (o + 3)

/-- `*(int64_t*)(p)` : little-endian eight-byte read (bit pattern as Nat). -/
def readU64 (m : Mem) (o : Nat) : Nat :=
  readU32 m o + 4294967296 * readU32 m (o + 4)

/-- `*(int32_t*)(p) = v` : little-endian four-byte store. -/
def writeU32 (m : Mem) (o v : Nat) : Mem := fun i =>
  if i = o then v % 256
  else if i = o + 1 then v / 256 % 256
  else if i = o + 2 then v / 65536 % 256
  else if i = o + 3 then v / 16777216 % 256
  else m i

/-- All-zero memory (a freshly zeroed return area). -/
def zeroMem : Mem := fun _ => 0

theorem byteAt_writeU32_lt (m : Mem) (o v i : Nat) (h : i < o) :
    byteAt (writeU32 m o v) i = byteAt m i := by
  unfold byteAt writeU32
  have h0 : i ≠ o := by omega
  have h1 : i ≠ o + 1 := by omega
  have h2 : i ≠ o + 2 := by omega
  have h3 : i ≠ o + 3 := by omega
  simp [h0, h1, h2, h3]

theorem byteAt_writeU32_ge (m : Mem) (o v i : Nat) (h : o + 4 ≤ i) :
    byteAt (writeU32 m o v) i = byteAt m i := by
  unfold byteAt writeU32
  have h0 : i ≠ o := by omega
  have h1 : i ≠ o + 1 := by omega
  have h2 : i ≠ o + 2 := by omega
  have h3 : i ≠ o + 3 := by omega
  simp [h0, h1, h2, h3]

theorem readU32_writeU32_self (m : Mem) (o v : Nat) :
    readU32 (writeU32 m o v) o = v % 4294967296 := by
  have h1 : ¬(o + 1 = o) := by omega
  have h2 : ¬(o + 2 = o) := by omega
  have h2' : ¬(o + 2 = o + 1) := by omega
  have h3 : ¬(o + 3 = o) := by omega
  have h3' : ¬(o + 3 = o + 1) := by omega
  have h3'' : ¬(o + 3 = o + 2) := by omega
  have e0 : writeU32 m o v o = v % 256 := by
    unfold writeU32; rw [if_pos rfl]
  have e1 : writeU32 m o v (o + 1) = v / 256 % 256 := by
    unfold writeU32; rw [if_neg h1, if_pos rfl]
  have e2 : writeU32 m o v (o + 2) = v / 65536 % 256 := by
    unfold writeU32; rw [if_neg h2, if_neg h2', if_pos rfl]
  have e3 : writeU32 m o v (o + 3) = v / 16777216 % 256 := by
    unfold writeU32; rw [if_neg h3, if_neg h3', if_neg h3'', if_pos rfl]
  unfold readU32 byteAt
  rw [e0, e1, e2, e3]
  omega

theorem readU32_writeU32_left (m : Mem) (o v o' : Nat) (h : o' + 4 ≤ o) :
    readU32 (writeU32 m o v) o' = readU32 m o' := by
  unfold readU32
  rw [byteAt_writeU32_lt m o v o' (by omega),
    byteAt_writeU32_lt m o v (o' + 1) (by omega),
    byteAt_writeU32_lt m o v (o' + 2) (by omega),
    byteAt_writeU32_lt m o v (o' + 3) (by omega)]

theorem readU32_writeU32_right (m : Mem) (o v o' : Nat) (h : o + 4 ≤ o') :
    readU32 (writeU32 m o v) o' = readU32 m o' := by
  unfold readU32
  rw [byteAt_writeU32_ge m o v o' (by omega),
    byteAt_writeU32_ge m o v (o' + 1) (by omega),
    byteAt_writeU32_ge m o v (o' + 2) (by omega),
    byteAt_writeU32_ge m o v (o' + 3) (by omega)]

theorem readU8_writeU32_lt (m : Mem) (o v i : Nat) (h : i < o) :
    readU8 (writeU32 m o v) i = readU8 m i :=
  byteAt_writeU32_lt m o v i h

/-! ### Allocator (canonical_abi_realloc / canonical_abi_free)

Two generated variants exist in the repository.  The guarded variant
(key-value.c, sqlite.c, llm.c, redis/outbound-redis.c, redis/spin-redis.c,
config/spin-config.c, pg/outbound-pg.c, mysql/outbound-mysql.c, zig
spin-config.c) short-circuits zero-size requests; the plain variant (go http
spin-http.c and wasi-outbound-http.c, both nim files, and the separate copy
go outbound_redis/outbound-redis.c) forwards every request to libc.
`underlying` is the value the libc `realloc` call would return for this
request (0 modelling NULL). -/

structure ReallocOut where
  ret : Option Nat            -- `none` models reaching `abort()`
  calledUnderlying : Bool     -- whether libc realloc was invoked
deriving DecidableEq

namespace GuardedAlloc

/-- key-value.c lines 4-17 (same text in sqlite.c, llm.c,
redis/outbound-redis.c, redis/spin-redis.c, config/spin-config.c,
pg/outbound-pg.c, mysql/outbound-mysql.c and zig spin-config.c; the copy in
go outbound_redis/outbound-redis.c is NOT of this shape — it lacks the
zero-size check). -/
def canonical_abi_realloc (underlying ptr origSize align newSize : Nat) :
    ReallocOut :=
  if newSize = 0 then ⟨some align, false⟩
  else if underlying = 0 then ⟨none, true⟩
  else ⟨some underlying, true⟩

/-- key-value.c lines 19-28: returns `true` iff libc free is invoked. -/
def canonical_abi_free (ptr size align : Nat) : Bool :=
  if size = 0 then false else true

end GuardedAlloc

namespace HttpAlloc

/-- go http spin-http.c lines 4-15 (same text in go wasi-outbound-http.c,
both nim files, and go outbound_redis/outbound-redis.c lines 4-15): no
zero-size guard, realloc is always invoked. -/
def canonical_abi_realloc (underlying ptr origSize align newSize : Nat) :
    ReallocOut :=
  if underlying = 0 then ⟨none, true⟩
  else ⟨some underlying, true⟩

/-- go http spin-http.c lines 17-24 (same text in go wasi-outbound-http.c,
both nim files, and go outbound_redis/outbound-redis.c lines 17-24): libc
free is invoked unconditionally. -/
def canonical_abi_free (ptr size align : Nat) : Bool := true

end HttpAlloc

/-! ### Values

`CStr` models the generated `(ptr, len)` pair used for strings, byte bodies
and blobs.  A list value carries its backing pointer and its elements (the C
code walks `ptr[i]` for `i` in `0..len-1`; the elements list holds those
member values, so `len = elems.length`). -/

structure CStr where
  ptr : Nat
  len : Nat
deriving DecidableEq

structure CList (α : Type) where
  ptr : Nat
  elems : List α
deriving DecidableEq

/-- One `canonical_abi_free(ptr, size, align)` call emitted by a free
function, recorded as a trace event. -/
structure FreeCall where
  ptr : Nat
  size : Nat
  align : Nat
deriving DecidableEq

namespace GoHttp

/-! Models of go http spin-http.c.  The option types in that file carry a
numeric `tag` with cases 0 (absent) and 1 (present); values are modelled with
`Option`, matching structural equality of the C values (an absent option's
payload bytes are never read). -/

/-- spin-http.c lines 38-42: `canonical_abi_free(ret->ptr, ret->len, 1)`. -/
def spin_http_string_free (s : CStr) : List FreeCall :=
  [⟨s.ptr, s.len, 1⟩]

/-- spin-http.c lines 43-45: `canonical_abi_free(ptr->ptr, ptr->len * 1, 1)`. -/
def spin_http_body_free (b : CStr) : List FreeCall :=
  [⟨b.ptr, b.len * 1, 1⟩]

/-- spin-http.c lines 46-49: frees `f0` then `f1`. -/
def spin_http_tuple2_string_string_free (t : CStr × CStr) : List FreeCall :=
  spin_http_string_free t.1 ++ spin_http_string_free t.2

/-- spin-http.c lines 50-55: element frees for `i = 0..len-1`, then the
backing buffer at `(ptr, len * 16, 4)`. -/
def spin_http_headers_free (h : CList (CStr × CStr)) : List FreeCall :=
  (h.elems.map spin_http_tuple2_string_string_free).flatten
    ++ [⟨h.ptr, h.elems.length * 16, 4⟩]

/-- spin-http.c lines 56-61: same shape as headers. -/
def spin_http_params_free (p : CList (CStr × CStr)) : List FreeCall :=
  (p.elems.map spin_http_tuple2_string_string_free).flatten
    ++ [⟨p.ptr, p.elems.length * 16, 4⟩]

/-- spin-http.c lines 62-64: `canonical_abi_free(ptr->ptr, ptr->len * 1, 1)`. -/
def spin_http_uri_free (u : CStr) : List FreeCall :=
  [⟨u.ptr, u.len * 1, 1⟩]

/-- spin-http.c lines 65-72: frees the payload only in tag case 1. -/
def spin_http_option_body_free (b : Option CStr) : List FreeCall :=
  match b with
  | some v => spin_http_body_free v
  | none => []

/-- spin-http.c request value: method, uri, headers, params, body. -/
structure Request where
  method : Nat
  uri : CStr
  headers : CList (CStr × CStr)
  params : CList (CStr × CStr)
  body : Option CStr
deriving DecidableEq

/-- spin-http.c lines 73-78: uri, then headers, then params, then body. -/
def spin_http_request_free (r : Request) : List FreeCall :=
  spin_http_uri_free r.uri ++ spin_http_headers_free r.headers
    ++ spin_http_params_free r.params ++ spin_http_option_body_free r.body

end GoHttp

namespace KV

/-- key-value.c lines 42-46. -/
def key_value_string_free (s : CStr) : List FreeCall :=
  [⟨s.ptr, s.len, 1⟩]

/-- key-value.c lines 83-88: element string frees in index order, then the
backing buffer at `(ptr, len * 8, 4)`. -/
def key_value_list_string_free (l : CList CStr) : List FreeCall :=
  (l.elems.map key_value_string_free).flatten
    ++ [⟨l.ptr, l.elems.length * 8, 4⟩]

end KV

namespace Sqlite

/-- sqlite.h value variant: tags 0 integer, 1 real, 2 text, 3 blob, 4 null. -/
inductive Value where
  | integer (v : Nat)
  | real (bits : Nat)
  | text (s : CStr)
  | blob (b : CStr)
  | mkNull
deriving DecidableEq

/-- sqlite.c lines 42-46. -/
def sqlite_string_free (s : CStr) : List FreeCall :=
  [⟨s.ptr, s.len, 1⟩]

/-- sqlite.c lines 61-63: `canonical_abi_free(ptr->ptr, ptr->len * 1, 1)`. -/
def sqlite_list_u8_free (b : CStr) : List FreeCall :=
  [⟨b.ptr, b.len * 1, 1⟩]

/-- sqlite.c lines 64-75: owned payloads are freed for tag 2 (text) and
tag 3 (blob) only. -/
def sqlite_value_free (v : Value) : List FreeCall :=
  match v with
  | .text s => sqlite_string_free s
  | .blob b => sqlite_list_u8_free b
  | _ => []

/-- sqlite.c lines 76-81: element frees for `i = 0..len-1`, then the backing
buffer at `(ptr, len * 16, 8)`. -/
def sqlite_list_value_free (l : CList Value) : List FreeCall :=
  (l.elems.map sqlite_value_free).flatten
    ++ [⟨l.ptr, l.elems.length * 16, 8⟩]

end Sqlite

/-! ### The spin-http export encoder and the wasi-outbound-http import decoder -/

/-- An http response value: status plus optional headers and optional body,
each option payload being a `(ptr, len)` pair.  The same structural shape is
shared by `spin_http_response_t` and `wasi_outbound_http_response_t`. -/
structure HttpResponse where
  status : Nat
  headers : Option (Nat × Nat)
  body : Option (Nat × Nat)
deriving DecidableEq

/-- The three scalars an option of a `(ptr, len)` payload flattens to in the
go encoders (spin-http.c lines 117-149): tag 0 with zeroed payload scalars
when absent, tag 1 with pointer and length when present. -/
def optScalars (o : Option (Nat × Nat)) : Nat × Nat × Nat :=
  match o with
  | none => (0, 0, 0)
  | some pl => (1, pl.1, pl.2)

namespace GoHttp

/-- go http spin-http.c lines 150-157: the seven 32-bit stores into RET_AREA,
in program order, as `(byte offset, stored value)` pairs: body len at 48,
body ptr at 40, body tag at 32, headers len at 24, headers ptr at 16,
headers tag at 8, status at 0. -/
def encodeWrites (r : HttpResponse) : List (Nat × Nat) :=
  [(48, (optScalars r.body).2.2), (40, (optScalars r.body).2.1),
   (32, (optScalars r.body).1), (24, (optScalars r.headers).2.2),
   (16, (optScalars r.headers).2.1), (8, (optScalars r.headers).1),
   (0, r.status)]

/-- Memory state after the host has stored the ok discriminant 0 in the
leading result-tag slot of a zeroed return area and copied each encoded
scalar one 8-byte slot later, exactly the slot shift between the export's
return area and the import's result layout. -/
def roundTripMem (r : HttpResponse) : Mem :=
  (encodeWrites r).foldl (fun m ov => writeU32 m (ov.1 + 8) ov.2) zeroMem

end GoHttp

namespace NimHttp

/-- nim spin-http.c lines 112-135: stores into the 28-byte packed RET_AREA as
`(byte offset, width in bytes, value)` triples, in program order.  When an
option is absent only its tag byte is stored; the payload slots receive no
store at all. -/
def encodeWrites (r : HttpResponse) : List (Nat × Nat × Nat) :=
  [(0, 2, r.status)] ++
  (match r.headers with
   | some pl => [(4, 1, 1), (12, 4, pl.2), (8, 4, pl.1)]
   | none => [(4, 1, 0)]) ++
  (match r.body with
   | some pl => [(16, 1, 1), (24, 4, pl.2), (20, 4, pl.1)]
   | none => [(16, 1, 0)])

end NimHttp

/-- Writing the one-byte error discriminant into the first byte of the result
union (as `expected.val.err = ...` does) overlays the low byte of the 16-bit
`status` field of the union's ok view; the remaining bytes keep whatever the
uninitialized local held. -/
def overlayStatusByte (e : Nat) (j : HttpResponse) : HttpResponse :=
  { j with status := e % 256 + 256 * (j.status % 65536 / 256) }

/-- Result of an import wrapper that returns the error scalar and writes a
response out-parameter. -/
structure WasiOut where
  retVal : Nat
  ret0 : HttpResponse
deriving DecidableEq

namespace GoWasiHttp

/-- go http wasi-outbound-http.c lines 183-231: decode of the return area
after `__wasm_import_wasi_outbound_http_request`.  `junk` is the content of
the uninitialized local `expected` union viewed as the ok response; `ret0In`
is the content of `*ret0` before the call — the C ends with the unconditional
`*ret0 = variant13.val.ok`, so the parameter is never consulted.  The outer
tag is a `uint8_t` assigned from a 32-bit read, hence the mod 256.  For the
nested option tags, a value other than 1 selects no payload case (the decoder
reads no payload bytes for it); the theorems only evaluate tags 0 and 1. -/
def wasi_outbound_http_request (m : Mem) (junk : HttpResponse)
    (ret0In : HttpResponse) : WasiOut :=
  if readU32 m 0 % 256 = 0 then
    ⟨255,
      ⟨readU32 m 8 % 65536,
        (if readU32 m 16 = 1 then some (readU32 m 24, readU32 m 32) else none),
        (if readU32 m 40 = 1 then some (readU32 m 48, readU32 m 56) else none)⟩⟩
  else if readU32 m 0 % 256 = 1 then
    ⟨readU8 m 8, overlayStatusByte (readU8 m 8) junk⟩
  else
    ⟨junk.status % 256, junk⟩

end GoWasiHttp

namespace NimWasiHttp

/-- nim wasi-outbound-http.c lines 116-161: same decode against the packed
28-byte-result layout (status u16 at 4, headers tag at 8 with payload at
12/16, body tag at 20 with payload at 24/28, error byte at 4).  `junkErr` and
`junkErrB` are the uninitialized `is_err` flag and error byte of the local
`expected` for the case in which no result-tag case matches. -/
def wasi_outbound_http_request (m : Mem) (junk : HttpResponse) (junkErr : Bool)
    (junkErrB : Nat) (ret0In : HttpResponse) : WasiOut :=
  if readU8 m 0 = 0 then
    ⟨255,
      ⟨readU16 m 4,
        (if readU8 m 8 = 1 then some (readU32 m 12, readU32 m 16) else none),
        (if readU8 m 20 = 1 then some (readU32 m 24, readU32 m 28) else none)⟩⟩
  else if readU8 m 0 = 1 then
    ⟨readU8 m 4, overlayStatusByte (readU8 m 4) junk⟩
  else
    ⟨(if junkErr then junkErrB % 256 else 255), junk⟩

end NimWasiHttp

/-! ### outbound-redis.c import wrappers (result decode and return value)

Each wrapper decodes its `expected` result from the return area and ends with
`return expected.is_err ? expected.val.err : -1;` — the return type is the
`uint8_t` error enum, so `-1` is the byte 255.  The one-byte write to
`expected.val.err` overlays the low byte of the union's ok member; the
overlays below spell that out for the 32-bit pointer and the 64-bit integer
ok views. -/

/-- Error-byte store into the first byte of a union whose ok view starts with
a 32-bit field: the low byte becomes `e`, bytes 1-3 stay. -/
def overlayLow32 (e v : Nat) : Nat := e % 256 + 256 * (v % 4294967296 / 256)

/-- Error-byte store into the first byte of a union whose ok view is a 64-bit
integer: the low byte becomes `e`, bytes 1-7 stay. -/
def overlayLow64 (e v : Nat) : Nat :=
  e % 256 + 256 * (v % 18446744073709551616 / 256)

namespace OutboundRedis

/-- Uninitialized `outbound_redis_expected_unit_error_t` local: the `is_err`
flag and the union's error byte. -/
structure UnitJunk where
  isErr : Bool
  errB : Nat
deriving DecidableEq

/-- Uninitialized `outbound_redis_expected_payload_error_t` local (ok view:
pointer and length words). -/
structure PayloadJunk where
  isErr : Bool
  okPtr : Nat
  okLen : Nat
deriving DecidableEq

/-- Uninitialized `outbound_redis_expected_s64_error_t` local (ok view: one
64-bit word). -/
structure S64Junk where
  isErr : Bool
  okV : Nat
deriving DecidableEq

/-- outbound-redis.c lines 127-145: result tag byte at offset 0; on error the
error byte is read at offset 1; returns error byte or 255. -/
def outbound_redis_publish (m : Mem) (junk : UnitJunk) : Nat :=
  if readU8 m 0 = 0 then 255
  else if readU8 m 0 = 1 then readU8 m 1
  else if junk.isErr then junk.errB % 256 else 255

/-- outbound-redis.c lines 170-188: same shape as publish. -/
def outbound_redis_set (m : Mem) (junk : UnitJunk) : Nat :=
  if readU8 m 0 = 0 then 255
  else if readU8 m 0 = 1 then readU8 m 1
  else if junk.isErr then junk.errB % 256 else 255

/-- outbound-redis.c lines 148-167: ok payload (ptr at 4, len at 8) or error
byte at 4; ends with the unconditional `*ret0 = expected.val.ok` (so `ret0In`
is never consulted) and returns error byte or 255. -/
def outbound_redis_get (m : Mem) (junk : PayloadJunk) (ret0In : Nat × Nat) :
    Nat × (Nat × Nat) :=
  if readU8 m 0 = 0 then (255, (readU32 m 4, readU32 m 8))
  else if readU8 m 0 = 1 then
    (readU8 m 4, (overlayLow32 (readU8 m 4) junk.okPtr, junk.okLen))
  else ((if junk.isErr then junk.okPtr % 256 else 255), (junk.okPtr, junk.okLen))

/-- outbound-redis.c lines 191-210: ok s64 at offset 8 or error byte at
offset 8; unconditional `*ret0 = expected.val.ok`; returns error byte or
255. -/
def outbound_redis_incr (m : Mem) (junk : S64Junk) (ret0In : Nat) : Nat × Nat :=
  if readU8 m 0 = 0 then (255, readU64 m 8)
  else if readU8 m 0 = 1 then
    (readU8 m 8, overlayLow64 (readU8 m 8) junk.okV)
  else ((if junk.isErr then junk.okV % 256 else 255), junk.okV)

/-- outbound-redis.c lines 213-232: same shape as incr. -/
def outbound_redis_del (m : Mem) (junk : S64Junk) (ret0In : Nat) : Nat × Nat :=
  if readU8 m 0 = 0 then (255, readU64 m 8)
  else if readU8 m 0 = 1 then
    (readU8 m 8, overlayLow64 (readU8 m 8) junk.okV)
  else ((if junk.isErr then junk.okV % 256 else 255), junk.okV)

/-- outbound-redis.c lines 235-254: same shape as incr. -/
def outbound_redis_sadd (m : Mem) (junk : S64Junk) (ret0In : Nat) : Nat × Nat :=
  if readU8 m 0 = 0 then (255, readU64 m 8)
  else if readU8 m 0 = 1 then
    (readU8 m 8, overlayLow64 (readU8 m 8) junk.okV)
  else ((if junk.isErr then junk.okV % 256 else 255), junk.okV)

/-- outbound-redis.c lines 279-298: same shape as incr. -/
def outbound_redis_srem (m : Mem) (junk : S64Junk) (ret0In : Nat) : Nat × Nat :=
  if readU8 m 0 = 0 then (255, readU64 m 8)
  else if readU8 m 0 = 1 then
    (readU8 m 8, overlayLow64 (readU8 m 8) junk.okV)
  else ((if junk.isErr then junk.okV % 256 else 255), junk.okV)

/-- outbound-redis.c lines 257-276: ok list (ptr at 4, len at 8) or error
byte at 4; same return convention as get. -/
def outbound_redis_smembers (m : Mem) (junk : PayloadJunk)
    (ret0In : Nat × Nat) : Nat × (Nat × Nat) :=
  if readU8 m 0 = 0 then (255, (readU32 m 4, readU32 m 8))
  else if readU8 m 0 = 1 then
    (readU8 m 4, (overlayLow32 (readU8 m 4) junk.okPtr, junk.okLen))
  else ((if junk.isErr then junk.okPtr % 256 else 255), (junk.okPtr, junk.okLen))

/-- outbound-redis.c lines 301-320: same shape as smembers. -/
def outbound_redis_execute (m : Mem) (junk : PayloadJunk)
    (ret0In : Nat × Nat) : Nat × (Nat × Nat) :=
  if readU8 m 0 = 0 then (255, (readU32 m 4, readU32 m 8))
  else if readU8 m 0 = 1 then
    (readU8 m 4, (overlayLow32 (readU8 m 4) junk.okPtr, junk.okLen))
  else ((if junk.isErr then junk.okPtr % 256 else 255), (junk.okPtr, junk.okLen))

end OutboundRedis

namespace KV

/-! key-value.c import wrappers.  Every wrapper decodes the 16-byte RET_AREA
into a `key_value_expected_..._t`: result tag byte at offset 0 selecting ok
(case 0) or err (case 1); the nested `key_value_error_t` has its tag byte at
offset 4, whose case 5 carries a string read at offsets 8 and 12 and whose
other declared cases 0-4 carry no payload.  A result tag other than 0 or 1
matches no case of the outer switch: the uninitialized local `expected` is
copied to `*ret0` unchanged.  A nested tag other than 0-5 is stored as-is
with the string payload left as the uninitialized local. -/

/-- `key_value_error_t`: numeric tag plus the case-5 string payload slot. -/
structure ErrorV where
  tag : Nat
  ioStr : CStr
deriving DecidableEq

/-- The active member of a `key_value_expected_..._t` union. -/
inductive Val (α : Type) where
  | ok (v : α)
  | err (e : ErrorV)
deriving DecidableEq

/-- A decoded `key_value_expected_..._t`. -/
structure Expected (α : Type) where
  isErr : Bool
  val : Val α
deriving DecidableEq

/-- The nested error decode repeated verbatim in every wrapper
(key-value.c lines 114-136 and their copies): tag byte at offset 4, string
payload at offsets 8 and 12 for tag 5 only, `junkIo` for the payload slot
of every other tag. -/
def kv_error_decode (m : Mem) (junkIo : CStr) : ErrorV :=
  ⟨readU8 m 4,
   if readU8 m 4 = 5 then ⟨readU32 m 8, readU32 m 12⟩ else junkIo⟩

/-- The outer result decode shared by every wrapper: ok case via `okDec`,
err case via `kv_error_decode`, anything else leaves the uninitialized local
`junk` as the wrapper's output. -/
def kv_expected_decode {α : Type} (okDec : Mem → α) (m : Mem)
    (junk : Expected α) (junkIo : CStr) : Expected α :=
  if readU8 m 0 = 0 then ⟨false, .ok (okDec m)⟩
  else if readU8 m 0 = 1 then ⟨true, .err (kv_error_decode m junkIo)⟩
  else junk

/-- key-value.c lines 101-142: ok payload is the store handle, a u32 read at
offset 4. -/
def key_value_open (m : Mem) (junk : Expected Nat) (junkIo : CStr) :
    Expected Nat :=
  kv_expected_decode (fun m => readU32 m 4) m junk junkIo

/-- key-value.c lines 145-186: ok payload is `list<u8>`, ptr at 4, len at 8. -/
def key_value_get (m : Mem) (junk : Expected CStr) (junkIo : CStr) :
    Expected CStr :=
  kv_expected_decode (fun m => (⟨readU32 m 4, readU32 m 8⟩ : CStr)) m junk junkIo

/-- key-value.c lines 189-230: ok payload is unit. -/
def key_value_set (m : Mem) (junk : Expected Unit) (junkIo : CStr) :
    Expected Unit :=
  kv_expected_decode (fun _ => ()) m junk junkIo

/-- key-value.c lines 233-274: ok payload is unit. -/
def key_value_delete (m : Mem) (junk : Expected Unit) (junkIo : CStr) :
    Expected Unit :=
  kv_expected_decode (fun _ => ()) m junk junkIo

/-- key-value.c lines 277-318: ok payload is the bool byte at offset 4. -/
def key_value_exists (m : Mem) (junk : Expected Nat) (junkIo : CStr) :
    Expected Nat :=
  kv_expected_decode (fun m => readU8 m 4) m junk junkIo

/-- key-value.c lines 321-362: ok payload is `list<string>`, ptr at 4,
len at 8. -/
def key_value_get_keys (m : Mem) (junk : Expected CStr) (junkIo : CStr) :
    Expected CStr :=
  kv_expected_decode (fun m => (⟨readU32 m 4, readU32 m 8⟩ : CStr)) m junk junkIo

end KV

namespace Sqlite

/-- `sqlite_error_t`: numeric tag plus the case-4 string payload slot
(sqlite.h tags: 0-3 without payload, 4 = io with string). -/
structure ErrorV where
  tag : Nat
  ioStr : CStr
deriving DecidableEq

/-- The active member of a `sqlite_expected_..._t` union. -/
inductive Val (α : Type) where
  | ok (v : α)
  | err (e : ErrorV)
deriving DecidableEq

/-- A decoded `sqlite_expected_..._t`. -/
structure Expected (α : Type) where
  isErr : Bool
  val : Val α
deriving DecidableEq

/-- sqlite.c lines 113-151: result tag byte at offset 0; ok payload is the
connection handle read at offset 4; the nested error tag byte is at offset 4
with its case-4 string payload at offsets 8 and 12.  A result tag other than
0 or 1 leaves the uninitialized local as the output; a nested tag other than
0-4 is stored as-is with the payload slot left uninitialized. -/
def sqlite_open (m : Mem) (junk : Expected Nat) (junkIo : CStr) :
    Expected Nat :=
  if readU8 m 0 = 0 then ⟨false, .ok (readU32 m 4)⟩
  else if readU8 m 0 = 1 then
    ⟨true, .err ⟨readU8 m 4,
      if readU8 m 4 = 4 then ⟨readU32 m 8, readU32 m 12⟩ else junkIo⟩⟩
  else junk

end Sqlite

namespace Llm

/-- `llm_inferencing_params_t` (llm.h): five integer fields and three float
fields; the float fields are carried as their scalar content (no arithmetic
is ever performed on them here). -/
structure InferencingParams where
  max_tokens : Nat
  repeat_penalty : Nat
  repeat_penalty_last_n_token_count : Nat
  temperature : Nat
  top_k : Nat
  top_p : Nat
deriving DecidableEq

/-- llm.c lines 106-133: the seven scalars the optional params flatten to as
call arguments `option, option1, ..., option6`: tag 1 followed by the six
field values when present, tag 0 followed by six zeros when absent. -/
def llm_infer_param_scalars (params : Option InferencingParams) :
    Nat × Nat × Nat × Nat × Nat × Nat × Nat :=
  match params with
  | some p => (1, p.max_tokens, p.repeat_penalty,
      p.repeat_penalty_last_n_token_count, p.temperature, p.top_k, p.top_p)
  | none => (0, 0, 0, 0, 0, 0, 0)

/-- `llm_inferencing_result_t`: text string plus usage counters. -/
structure InferencingResult where
  text : CStr
  prompt_token_count : Nat
  generated_token_count : Nat
deriving DecidableEq

/-- `llm_error_t`: numeric tag; tags 1 and 2 carry a string payload. -/
structure ErrorV where
  tag : Nat
  msg : CStr
deriving DecidableEq

/-- The active member of an `llm_expected_..._t` union. -/
inductive Val (α : Type) where
  | ok (v : α)
  | err (e : ErrorV)
deriving DecidableEq

/-- A decoded `llm_expected_..._t`. -/
structure Expected (α : Type) where
  isErr : Bool
  val : Val α
deriving DecidableEq

/-- The nested error decode of llm.c (lines 152-166 and 193-207): tag byte at
offset 4; tags 1 and 2 read a string at offsets 8 and 12; tag 0 and any
out-of-range tag leave the payload slot uninitialized. -/
def llm_error_decode (m : Mem) (junkIo : CStr) : ErrorV :=
  ⟨readU8 m 4,
   if readU8 m 4 = 1 ∨ readU8 m 4 = 2 then ⟨readU32 m 8, readU32 m 12⟩
   else junkIo⟩

/-- llm.c lines 136-171: result tag byte at offset 0; ok payload is the
inferencing result (text ptr at 4, text len at 8, usage counters at 12 and
16); a result tag other than 0 or 1 leaves the uninitialized local as the
output. -/
def llm_infer (m : Mem) (junk : Expected InferencingResult) (junkIo : CStr) :
    Expected InferencingResult :=
  if readU8 m 0 = 0 then
    ⟨false, .ok ⟨⟨readU32 m 4, readU32 m 8⟩,
      readU32 m 12 % 4294967296, readU32 m 16 % 4294967296⟩⟩
  else if readU8 m 0 = 1 then ⟨true, .err (llm_error_decode m junkIo)⟩
  else junk

/-- `llm_embeddings_result_t`: embeddings list plus usage counter. -/
structure EmbeddingsResult where
  embeddings : CStr
  prompt_token_count : Nat
deriving DecidableEq

/-- llm.c lines 178-212: result tag byte at offset 0; ok payload is the
embeddings list (ptr at 4, len at 8) and the usage counter at 12. -/
def llm_generate_embeddings (m : Mem) (junk : Expected EmbeddingsResult)
    (junkIo : CStr) : Expected EmbeddingsResult :=
  if readU8 m 0 = 0 then
    ⟨false, .ok ⟨⟨readU32 m 4, readU32 m 8⟩, readU32 m 12 % 4294967296⟩⟩
  else if readU8 m 0 = 1 then ⟨true, .err (llm_error_decode m junkIo)⟩
  else junk

end Llm

/-! ### Helper lemmas -/

theorem byteAt_lt (m : Mem) (i : Nat) : byteAt m i < 256 := by
  unfold byteAt; omega

/-- The low byte of a 32-bit little-endian read is the byte at its base. -/
theorem readU32_mod256 (m : Mem) (o : Nat) : readU32 m o % 256 = readU8 m o := by
  unfold readU32 readU8
  have h := byteAt_lt m o
  omega

theorem readU32_zeroMem (o : Nat) : readU32 zeroMem o = 0 := by
  unfold readU32 byteAt zeroMem
  simp

/-- Walking a list by indices `0..len-1` visits exactly the elements in
order. -/
theorem map_range_getD {α β : Type} (f : α → β) (d : α) (l : List α) :
    (List.range l.length).map (fun i => f (l.getD i d)) = l.map f := by
  induction l with
  | nil => rfl
  | cons a t ih =>
    rw [List.length_cons, List.range_succ_eq_map, List.map_cons, List.map_map]
    have hc : ((fun i => f ((a :: t).getD i d)) ∘ Nat.succ)
        = fun i => f (t.getD i d) := by
      funext i; rfl
    rw [hc, ih]
    rfl

/-- The memory produced by the seven stores of the go export wrapper, each
shifted one 8-byte slot to the right of its encoding offset, on top of a
zeroed area. -/
def sevenWrites (s h0 h1 h2 b0 b1 b2 : Nat) : Mem :=
  writeU32 (writeU32 (writeU32 (writeU32 (writeU32 (writeU32 (writeU32
    zeroMem 56 b2) 48 b1) 40 b0) 32 h2) 24 h1) 16 h0) 8 s

theorem roundTripMem_eq (r : HttpResponse) :
    GoHttp.roundTripMem r
      = sevenWrites r.status (optScalars r.headers).1 (optScalars r.headers).2.1
          (optScalars r.headers).2.2 (optScalars r.body).1
          (optScalars r.body).2.1 (optScalars r.body).2.2 := rfl

theorem sevenWrites_reads (s h0 h1 h2 b0 b1 b2 : Nat) :
    readU32 (sevenWrites s h0 h1 h2 b0 b1 b2) 0 = 0
  ∧ readU32 (sevenWrites s h0 h1 h2 b0 b1 b2) 8 = s % 4294967296
  ∧ readU32 (sevenWrites s h0 h1 h2 b0 b1 b2) 16 = h0 % 4294967296
  ∧ readU32 (sevenWrites s h0 h1 h2 b0 b1 b2) 24 = h1 % 4294967296
  ∧ readU32 (sevenWrites s h0 h1 h2 b0 b1 b2) 32 = h2 % 4294967296
  ∧ readU32 (sevenWrites s h0 h1 h2 b0 b1 b2) 40 = b0 % 4294967296
  ∧ readU32 (sevenWrites s h0 h1 h2 b0 b1 b2) 48 = b1 % 4294967296
  ∧ readU32 (sevenWrites s h0 h1 h2 b0 b1 b2) 56 = b2 % 4294967296 := by
  unfold sevenWrites
  refine ⟨?_, ?_, ?_, ?_, ?_, ?_, ?_, ?_⟩
  · rw [readU32_writeU32_left _ 8 s 0 (by omega),
      readU32_writeU32_left _ 16 h0 0 (by omega),
      readU32_writeU32_left _ 24 h1 0 (by omega),
      readU32_writeU32_left _ 32 h2 0 (by omega),
      readU32_writeU32_left _ 40 b0 0 (by omega),
      readU32_writeU32_left _ 48 b1 0 (by omega),
      readU32_writeU32_left _ 56 b2 0 (by omega),
      readU32_zeroMem]
  · rw [readU32_writeU32_self]
  · rw [readU32_writeU32_right _ 8 s 16 (by omega), readU32_writeU32_self]
  · rw [readU32_writeU32_right _ 8 s 24 (by omega),
      readU32_writeU32_right _ 16 h0 24 (by omega)]
    exact readU32_writeU32_self _ 24 h1
  · rw [readU32_writeU32_right _ 8 s 32 (by omega),
      readU32_writeU32_right _ 16 h0 32 (by omega),
      readU32_writeU32_right _ 24 h1 32 (by omega)]
    exact readU32_writeU32_self _ 32 h2
  · rw [readU32_writeU32_right _ 8 s 40 (by omega),
      readU32_writeU32_right _ 16 h0 40 (by omega),
      readU32_writeU32_right _ 24 h1 40 (by omega),
      readU32_writeU32_right _ 32 h2 40 (by omega)]
    exact readU32_writeU32_self _ 40 b0
  · rw [readU32_writeU32_right _ 8 s 48 (by omega),
      readU32_writeU32_right _ 16 h0 48 (by omega),
      readU32_writeU32_right _ 24 h1 48 (by omega),
      readU32_writeU32_right _ 32 h2 48 (by omega),
      readU32_writeU32_right _ 40 b0 48 (by omega)]
    exact readU32_writeU32_self _ 48 b1
  · rw [readU32_writeU32_right _ 8 s 56 (by omega),
      readU32_writeU32_right _ 16 h0 56 (by omega),
      readU32_writeU32_right _ 24 h1 56 (by omega),
      readU32_writeU32_right _ 32 h2 56 (by omega),
      readU32_writeU32_right _ 40 b0 56 (by omega),
      readU32_writeU32_right _ 48 b1 56 (by omega)]
    exact readU32_writeU32_self _ 56 b2

/-- Well-formedness of an optional `(ptr, len)` payload: both words are
representable in 32 bits. -/
def optWf (o : Option (Nat × Nat)) : Prop :=
  match o with
  | none => True
  | some pl => pl.1 < 4294967296 ∧ pl.2 < 4294967296

/-! ### Claims -/

/-- C2 counterexample: the allocator pair generated into go http
spin-http.c (and, with the same text, into go http wasi-outbound-http.c,
both nim files and go outbound_redis/outbound-redis.c) violates the
zero-size contract: `canonical_abi_realloc(0, 0, 8, 0)` invokes the
underlying realloc (whose result, here 12345, is returned instead of the
alignment 8), and `canonical_abi_free(77, 0, 1)` forwards to the underlying
free. -/
theorem claim_C2_counterexample :
    (HttpAlloc.canonical_abi_realloc 12345 0 0 8 0).calledUnderlying = true
  ∧ (HttpAlloc.canonical_abi_realloc 12345 0 0 8 0).ret ≠ some 8
  ∧ HttpAlloc.canonical_abi_free 77 0 1 = true := by
  refine ⟨rfl, ?_, rfl⟩
  decide

/-- C2 (amended): the guarded allocator instances (key-value.c, sqlite.c,
llm.c, redis/outbound-redis.c, redis/spin-redis.c, config/spin-config.c,
pg/outbound-pg.c, mysql/outbound-mysql.c, zig spin-config.c) satisfy the
zero-size contract — realloc with newSize 0 returns the alignment without
invoking the underlying realloc, and free with size 0 does not invoke the
underlying free; the five plain instances (go http spin-http.c, go http
wasi-outbound-http.c, both nim files, and go outbound_redis/outbound-redis.c)
instead forward zero-size requests to the underlying allocator
unconditionally. -/
theorem claim_C2_alloc_zero_size (u p o a : Nat) :
    GuardedAlloc.canonical_abi_realloc u p o a 0 = ⟨some a, false⟩
  ∧ GuardedAlloc.canonical_abi_free p 0 a = false
  ∧ (HttpAlloc.canonical_abi_realloc u p o a 0).calledUnderlying = true
  ∧ HttpAlloc.canonical_abi_free p 0 a = true := by
  refine ⟨rfl, rfl, ?_, rfl⟩
  unfold HttpAlloc.canonical_abi_realloc
  by_cases hu : u = 0 <;> simp [hu]

/-- C5: in every allocator instance, a call with `newSize > 0` aborts
exactly when the underlying realloc returns null, and whenever the call
returns, the returned pointer is non-null. -/
theorem claim_C5_allocation_failure_fatal (u p o a n : Nat) (hn : 0 < n) :
    ((GuardedAlloc.canonical_abi_realloc u p o a n).ret = none ↔ u = 0)
  ∧ ((HttpAlloc.canonical_abi_realloc u p o a n).ret = none ↔ u = 0)
  ∧ (∀ q, (GuardedAlloc.canonical_abi_realloc u p o a n).ret = some q → q ≠ 0)
  ∧ (∀ q, (HttpAlloc.canonical_abi_realloc u p o a n).ret = some q → q ≠ 0) := by
  have hne : ¬(n = 0) := by omega
  unfold GuardedAlloc.canonical_abi_realloc HttpAlloc.canonical_abi_realloc
  rw [if_neg hne]
  by_cases hu : u = 0
  · subst hu
    simp
  · simp only [if_neg hu]
    refine ⟨by simp [hu], by simp [hu], ?_, ?_⟩ <;>
      · intro q hq
        simp only [Option.some_inj] at hq
        omega

/-- C5 witness at `u = 0, n = 1` (underlying realloc fails, the call
aborts). -/
theorem claim_C5_witness :
    ((GuardedAlloc.canonical_abi_realloc 0 0 0 4 1).ret = none ↔ (0 : Nat) = 0)
  ∧ ((HttpAlloc.canonical_abi_realloc 0 0 0 4 1).ret = none ↔ (0 : Nat) = 0)
  ∧ (∀ q, (GuardedAlloc.canonical_abi_realloc 0 0 0 4 1).ret = some q → q ≠ 0)
  ∧ (∀ q, (HttpAlloc.canonical_abi_realloc 0 0 0 4 1).ret = some q → q ≠ 0) :=
  claim_C5_allocation_failure_fatal 0 0 0 4 1 (by decide)

/-- C6: the generated free functions release nested owned allocations before
the containing allocation: `spin_http_request_free` frees uri, then headers,
then params, then body (record declaration order); each cited list free
releases the elements at indices `0..len-1` in order and then the backing
buffer, at size `len * 16` align 4 for `list<tuple<string, string>>`, size
`len * 16` align 8 for `list<sqlite value>`, and size `len * 8` align 4 for
`list<string>`. -/
theorem claim_C6_free_traversal_order (r : GoHttp.Request)
    (h : CList (CStr × CStr)) (sv : CList Sqlite.Value) (ks : CList CStr) :
    GoHttp.spin_http_request_free r
      = GoHttp.spin_http_uri_free r.uri
        ++ GoHttp.spin_http_headers_free r.headers
        ++ GoHttp.spin_http_params_free r.params
        ++ GoHttp.spin_http_option_body_free r.body
  ∧ GoHttp.spin_http_headers_free h
      = ((List.range h.elems.length).map (fun i =>
          GoHttp.spin_http_tuple2_string_string_free
            (h.elems.getD i ⟨⟨0, 0⟩, ⟨0, 0⟩⟩))).flatten
        ++ [⟨h.ptr, h.elems.length * 16, 4⟩]
  ∧ Sqlite.sqlite_list_value_free sv
      = ((List.range sv.elems.length).map (fun i =>
          Sqlite.sqlite_value_free (sv.elems.getD i .mkNull))).flatten
        ++ [⟨sv.ptr, sv.elems.length * 16, 8⟩]
  ∧ KV.key_value_list_string_free ks
      = ((List.range ks.elems.length).map (fun i =>
          KV.key_value_string_free (ks.elems.getD i ⟨0, 0⟩))).flatten
        ++ [⟨ks.ptr, ks.elems.length * 8, 4⟩] := by
  refine ⟨rfl, ?_, ?_, ?_⟩
  · unfold GoHttp.spin_http_headers_free
    rw [map_range_getD]
  · unfold Sqlite.sqlite_list_value_free
    rw [map_range_getD]
  · unfold KV.key_value_list_string_free
    rw [map_range_getD]

/-- Decoding the shifted seven-slot image: the ok branch is taken and each
field comes back from its slot. -/
theorem decode_sevenWrites (s h0 h1 h2 b0 b1 b2 : Nat)
    (junk r0 : HttpResponse) :
    GoWasiHttp.wasi_outbound_http_request (sevenWrites s h0 h1 h2 b0 b1 b2)
        junk r0
      = ⟨255, ⟨s % 4294967296 % 65536,
          (if h0 % 4294967296 = 1
            then some (h1 % 4294967296, h2 % 4294967296) else none),
          (if b0 % 4294967296 = 1
            then some (b1 % 4294967296, b2 % 4294967296) else none)⟩⟩ := by
  obtain ⟨e0, e8, e16, e24, e32, e40, e48, e56⟩ :=
    sevenWrites_reads s h0 h1 h2 b0 b1 b2
  unfold GoWasiHttp.wasi_outbound_http_request
  rw [e0, e8, e16, e24, e32, e40, e48, e56]
  norm_num

/-- C1: for every response `r` whose status fits 16 bits and whose option
payload words fit 32 bits, writing `r` into the seven 8-byte slots at
offsets 0, 8, 16, 24, 32, 40, 48 exactly as the go export wrapper
`__wasm_export_spin_http_handle_http_request` does, then reading those slots
back shifted one slot past a leading ok result tag exactly as the ok branch
of go `wasi_outbound_http_request` does, yields `r` again (and the sentinel
return 255). -/
theorem claim_C1_roundtrip (r junk r0 : HttpResponse)
    (hs : r.status < 65536) (hh : optWf r.headers) (hb : optWf r.body) :
    GoWasiHttp.wasi_outbound_http_request (GoHttp.roundTripMem r) junk r0
      = ⟨255, r⟩ := by
  obtain ⟨s, ho, bo⟩ := r
  rw [roundTripMem_eq, decode_sevenWrites]
  simp only [WasiOut.mk.injEq, HttpResponse.mk.injEq, true_and]
  refine ⟨by simp at hs; omega, ?_, ?_⟩
  · cases ho with
    | none => simp [optScalars]
    | some pl =>
      obtain ⟨p, l⟩ := pl
      simp only [optWf] at hh
      simp only [optScalars]
      norm_num
      exact ⟨by omega, by omega⟩
  · cases bo with
    | none => simp [optScalars]
    | some pl =>
      obtain ⟨p, l⟩ := pl
      simp only [optWf] at hb
      simp only [optScalars]
      norm_num
      exact ⟨by omega, by omega⟩

/-- A concrete response for the C1 witness. -/
def c1ExResp : HttpResponse := ⟨200, some (4096, 2), some (8192, 6)⟩

/-- C1 witness at a concrete response. -/
theorem claim_C1_witness :
    GoWasiHttp.wasi_outbound_http_request (GoHttp.roundTripMem c1ExResp)
        ⟨0, none, none⟩ ⟨0, none, none⟩ = ⟨255, c1ExResp⟩ :=
  claim_C1_roundtrip c1ExResp ⟨0, none, none⟩ ⟨0, none, none⟩
    (by norm_num [c1ExResp]) (by simp [c1ExResp, optWf])
    (by simp [c1ExResp, optWf])

/-- Return-area image whose result tag byte is 2 (out of range for the
two-case result). -/
def memTag2 : Mem := fun i => if i = 0 then 2 else 0

/-- Return-area image with result tag 1 and nested error tag 6 (out of range
for the six-case key-value error). -/
def memErrTag6 : Mem := fun i => if i = 0 then 1 else if i = 4 then 6 else 0

/-- C3 counterexample: an out-of-range tag is neither rejected nor trapped.
With result tag byte 2, `key_value_open` completes normally and hands back
exactly the uninitialized local `expected` — two runs differing only in that
indeterminate local produce two different decoded results; and with a nested
error tag 6, the decoder stores tag 6 as-is with the payload slot left as
the uninitialized local. -/
theorem claim_C3_counterexample :
    KV.key_value_open memTag2 ⟨false, .ok 11⟩ ⟨0, 0⟩ = ⟨false, .ok 11⟩
  ∧ KV.key_value_open memTag2 ⟨true, .err ⟨3, ⟨7, 7⟩⟩⟩ ⟨0, 0⟩
      = ⟨true, .err ⟨3, ⟨7, 7⟩⟩⟩
  ∧ (⟨false, .ok 11⟩ : KV.Expected Nat) ≠ ⟨true, .err ⟨3, ⟨7, 7⟩⟩⟩
  ∧ KV.key_value_open memErrTag6 ⟨false, .ok 0⟩ ⟨9, 9⟩
      = ⟨true, .err ⟨6, ⟨9, 9⟩⟩⟩ := by
  refine ⟨?_, ?_, by decide, ?_⟩ <;> decide

/-- C3 (amended): for a tag in range the decoder branches into the matching
declared case; a result tag outside the two declared cases selects no case
and the wrapper completes normally, leaving as its output whatever the
uninitialized local held (so out-of-range tags are passed through silently,
neither rejected nor trapped); a nested error tag outside the declared cases
is stored as-is with its payload slot left uninitialized. -/
theorem claim_C3_tag_range (m : Mem) (jk : KV.Expected Nat)
    (js : Sqlite.Expected Nat) (jio jio2 : CStr) (jr r0 : HttpResponse) :
    (readU8 m 0 = 0 →
      KV.key_value_open m jk jio = ⟨false, .ok (readU32 m 4)⟩
      ∧ Sqlite.sqlite_open m js jio2 = ⟨false, .ok (readU32 m 4)⟩)
  ∧ (readU8 m 0 = 1 →
      KV.key_value_open m jk jio = ⟨true, .err (KV.kv_error_decode m jio)⟩
      ∧ (KV.kv_error_decode m jio).tag = readU8 m 4
      ∧ (6 ≤ readU8 m 4 → (KV.kv_error_decode m jio).ioStr = jio))
  ∧ (2 ≤ readU8 m 0 →
      KV.key_value_open m jk jio = jk
      ∧ Sqlite.sqlite_open m js jio2 = js
      ∧ (GoWasiHttp.wasi_outbound_http_request m jr r0).ret0 = jr) := by
  refine ⟨?_, ?_, ?_⟩
  · intro h
    constructor <;>
      simp [KV.key_value_open, KV.kv_expected_decode, Sqlite.sqlite_open, h]
  · intro h
    refine ⟨by simp [KV.key_value_open, KV.kv_expected_decode, h], rfl, ?_⟩
    intro h6
    have hne : ¬(readU8 m 4 = 5) := by omega
    simp [KV.kv_error_decode, hne]
  · intro h
    have h0 : ¬(readU8 m 0 = 0) := by omega
    have h1 : ¬(readU8 m 0 = 1) := by omega
    refine ⟨by simp [KV.key_value_open, KV.kv_expected_decode, h0, h1],
      by simp [Sqlite.sqlite_open, h0, h1], ?_⟩
    unfold GoWasiHttp.wasi_outbound_http_request
    rw [readU32_mod256]
    simp [h0, h1]

/-- C3 witness: the amended behaviour at the two concrete images used by the
counterexample. -/
theorem claim_C3_witness :
    KV.key_value_open memTag2 ⟨false, .ok 5⟩ ⟨1, 2⟩ = ⟨false, .ok 5⟩
  ∧ Sqlite.sqlite_open memTag2 ⟨true, .err ⟨2, ⟨3, 4⟩⟩⟩ ⟨1, 2⟩
      = ⟨true, .err ⟨2, ⟨3, 4⟩⟩⟩
  ∧ (GoWasiHttp.wasi_outbound_http_request memTag2 ⟨9, none, none⟩
      ⟨0, none, none⟩).ret0 = ⟨9, none, none⟩ :=
  (claim_C3_tag_range memTag2 ⟨false, .ok 5⟩ ⟨true, .err ⟨2, ⟨3, 4⟩⟩⟩
    ⟨1, 2⟩ ⟨1, 2⟩ ⟨9, none, none⟩ ⟨0, none, none⟩).2.2 (by decide)

/-- C4 counterexample: the go export encoder does not leave inactive-case
payload scalar positions unwritten — encoding a response whose headers and
body options are both absent still stores zeros into the headers payload
slots (offsets 16 and 24) and the body payload slots (offsets 40 and 48);
and `llm_infer` with absent params still passes all six payload scalars,
zeroed, to the import call. -/
theorem claim_C4_counterexample :
    ((16, 0) ∈ GoHttp.encodeWrites ⟨200, none, none⟩)
  ∧ ((24, 0) ∈ GoHttp.encodeWrites ⟨200, none, none⟩)
  ∧ ((40, 0) ∈ GoHttp.encodeWrites ⟨200, none, none⟩)
  ∧ ((48, 0) ∈ GoHttp.encodeWrites ⟨200, none, none⟩)
  ∧ Llm.llm_infer_param_scalars none = (0, 0, 0, 0, 0, 0, 0) := by
  refine ⟨?_, ?_, ?_, ?_, rfl⟩ <;> decide

/-- C4 (amended): every encoder emits the tag, and the tag alone determines
which payload scalars are meaningful; but only the nim export encoder leaves
the absent case's payload slots unwritten — the go export encoder always
stores all seven slots, writing zeros into the payload positions of an
absent option, and `llm_infer` always passes all payload scalars, zeroed
when the params option is absent. -/
theorem claim_C4_inactive_scalars (r : HttpResponse) :
    ((GoHttp.encodeWrites r).map Prod.fst = [48, 40, 32, 24, 16, 8, 0])
  ∧ (r.headers = none →
      (16, 0) ∈ GoHttp.encodeWrites r ∧ (24, 0) ∈ GoHttp.encodeWrites r)
  ∧ (r.body = none →
      (40, 0) ∈ GoHttp.encodeWrites r ∧ (48, 0) ∈ GoHttp.encodeWrites r)
  ∧ (r.headers = none →
      ∀ w ∈ NimHttp.encodeWrites r, w.1 ≠ 8 ∧ w.1 ≠ 12)
  ∧ (r.body = none →
      ∀ w ∈ NimHttp.encodeWrites r, w.1 ≠ 20 ∧ w.1 ≠ 24)
  ∧ (∀ pl, r.headers = some pl →
      (4, 1, 1) ∈ NimHttp.encodeWrites r
      ∧ (8, 4, pl.1) ∈ NimHttp.encodeWrites r
      ∧ (12, 4, pl.2) ∈ NimHttp.encodeWrites r)
  ∧ Llm.llm_infer_param_scalars none = (0, 0, 0, 0, 0, 0, 0) := by
  obtain ⟨s, ho, bo⟩ := r
  refine ⟨rfl, ?_, ?_, ?_, ?_, ?_, rfl⟩
  · intro h
    cases ho with
    | none => constructor <;> simp [GoHttp.encodeWrites, optScalars]
    | some pl => cases h
  · intro h
    cases bo with
    | none => constructor <;> simp [GoHttp.encodeWrites, optScalars]
    | some pl => cases h
  · intro h w hw
    cases ho with
    | none =>
      cases bo <;>
        (simp [NimHttp.encodeWrites] at hw;
         rcases hw with rfl | rfl | rfl | rfl | rfl | rfl <;> simp)
    | some pl => cases h
  · intro h w hw
    cases bo with
    | none =>
      cases ho <;>
        (simp [NimHttp.encodeWrites] at hw;
         rcases hw with rfl | rfl | rfl | rfl | rfl | rfl <;> simp)
    | some pl => cases h
  · intro pl h
    cases ho with
    | none => cases h
    | some pl' =>
      cases h
      cases bo <;> refine ⟨?_, ?_, ?_⟩ <;> simp [NimHttp.encodeWrites]

/-- C4 witness: the amended behaviour at a concrete all-absent response. -/
theorem claim_C4_witness :
    ((16, 0) ∈ GoHttp.encodeWrites ⟨200, none, none⟩
      ∧ (24, 0) ∈ GoHttp.encodeWrites ⟨200, none, none⟩)
  ∧ ∀ w ∈ NimHttp.encodeWrites ⟨200, none, none⟩, w.1 ≠ 8 ∧ w.1 ≠ 12 :=
  ⟨(claim_C4_inactive_scalars ⟨200, none, none⟩).2.1 rfl,
   (claim_C4_inactive_scalars ⟨200, none, none⟩).2.2.2.1 rfl⟩

/-- C7: variant payload offsets in the cited decoders — the error byte of
the unit result of `outbound_redis_publish` is read at offset 1 (one tag
byte before it); the s64 ok payload and the error byte of
`outbound_redis_incr` are both read at offset 8; the ok payload of
`key_value_open` is read at offset 4, and the nested error's case-5 string
payload is read at offsets 8 and 12, four bytes past the nested tag at
offset 4. -/
theorem claim_C7_variant_payload_offsets (m : Mem)
    (ju : OutboundRedis.UnitJunk) (js : OutboundRedis.S64Junk) (rn : Nat)
    (jk : KV.Expected Nat) (jio : CStr) :
    (readU8 m 0 = 1 → OutboundRedis.outbound_redis_publish m ju = readU8 m 1)
  ∧ (readU8 m 0 = 0 →
      (OutboundRedis.outbound_redis_incr m js rn).2 = readU64 m 8)
  ∧ (readU8 m 0 = 1 →
      (OutboundRedis.outbound_redis_incr m js rn).1 = readU8 m 8)
  ∧ (readU8 m 0 = 0 →
      KV.key_value_open m jk jio = ⟨false, .ok (readU32 m 4)⟩)
  ∧ (readU8 m 0 = 1 → readU8 m 4 = 5 →
      KV.key_value_open m jk jio
        = ⟨true, .err ⟨5, ⟨readU32 m 8, readU32 m 12⟩⟩⟩) := by
  refine ⟨?_, ?_, ?_, ?_, ?_⟩
  · intro h
    simp [OutboundRedis.outbound_redis_publish, h]
  · intro h
    simp [OutboundRedis.outbound_redis_incr, h]
  · intro h
    simp [OutboundRedis.outbound_redis_incr, h]
  · intro h
    simp [KV.key_value_open, KV.kv_expected_decode, h]
  · intro h h5
    simp [KV.key_value_open, KV.kv_expected_decode, KV.kv_error_decode, h, h5]

/-- Return-area image with result tag 1, error byte 5 at offset 1, nested
tag 5 at offset 4 and string words 640 and 3 at offsets 8 and 12. -/
def memC7Ex : Mem := fun i =>
  if i = 0 then 1 else if i = 1 then 5 else if i = 4 then 5
  else if i = 8 then 128 else if i = 9 then 2 else if i = 12 then 3 else 0

/-- C7 witness at a concrete image. -/
theorem claim_C7_witness :
    OutboundRedis.outbound_redis_publish memC7Ex ⟨false, 0⟩ = readU8 memC7Ex 1
  ∧ KV.key_value_open memC7Ex ⟨false, .ok 0⟩ ⟨0, 0⟩
      = ⟨true, .err ⟨5, ⟨readU32 memC7Ex 8, readU32 memC7Ex 12⟩⟩⟩ :=
  ⟨(claim_C7_variant_payload_offsets memC7Ex ⟨false, 0⟩ ⟨false, 0⟩ 0
      ⟨false, .ok 0⟩ ⟨0, 0⟩).1 (by decide),
   (claim_C7_variant_payload_offsets memC7Ex ⟨false, 0⟩ ⟨false, 0⟩ 0
      ⟨false, .ok 0⟩ ⟨0, 0⟩).2.2.2.2 (by decide) (by decide)⟩

/-- C8: return-area bounds.  Every wrapper in key-value.c depends only on
the first 16 bytes of its return area (the declared size of its RET_AREA),
every wrapper in llm.c depends only on the first 20 bytes, and every store
the go spin-http.c export wrapper performs lies within the 56 bytes of its
`int64_t RET_AREA[7]` — two memories agreeing on the buffer's declared
extent decode identically, and every written offset is in bounds. -/
theorem claim_C8_return_area_bounds (m m' m2 m2' : Mem)
    (h16 : ∀ i, i < 16 → m i = m' i) (h20 : ∀ i, i < 20 → m2 i = m2' i)
    (jn : KV.Expected Nat) (jc : KV.Expected CStr) (jun : KV.Expected Unit)
    (jio : CStr) (jinf : Llm.Expected Llm.InferencingResult)
    (jemb : Llm.Expected Llm.EmbeddingsResult) (jio2 : CStr)
    (r : HttpResponse) :
    KV.key_value_open m jn jio = KV.key_value_open m' jn jio
  ∧ KV.key_value_get m jc jio = KV.key_value_get m' jc jio
  ∧ KV.key_value_set m jun jio = KV.key_value_set m' jun jio
  ∧ KV.key_value_delete m jun jio = KV.key_value_delete m' jun jio
  ∧ KV.key_value_exists m jn jio = KV.key_value_exists m' jn jio
  ∧ KV.key_value_get_keys m jc jio = KV.key_value_get_keys m' jc jio
  ∧ Llm.llm_infer m2 jinf jio2 = Llm.llm_infer m2' jinf jio2
  ∧ Llm.llm_generate_embeddings m2 jemb jio2
      = Llm.llm_generate_embeddings m2' jemb jio2
  ∧ (∀ w ∈ GoHttp.encodeWrites r, w.1 + 4 ≤ 56) := by
  have e0 : readU8 m 0 = readU8 m' 0 := by
    unfold readU8 byteAt; rw [h16 0 (by omega)]
  have e4 : readU8 m 4 = readU8 m' 4 := by
    unfold readU8 byteAt; rw [h16 4 (by omega)]
  have r4 : readU32 m 4 = readU32 m' 4 := by
    unfold readU32 byteAt
    rw [h16 4 (by omega), h16 5 (by omega), h16 6 (by omega), h16 7 (by omega)]
  have r8 : readU32 m 8 = readU32 m' 8 := by
    unfold readU32 byteAt
    rw [h16 8 (by omega), h16 9 (by omega), h16 10 (by omega),
      h16 11 (by omega)]
  have r12 : readU32 m 12 = readU32 m' 12 := by
    unfold readU32 byteAt
    rw [h16 12 (by omega), h16 13 (by omega), h16 14 (by omega),
      h16 15 (by omega)]
  have f0 : readU8 m2 0 = readU8 m2' 0 := by
    unfold readU8 byteAt; rw [h20 0 (by omega)]
  have f4 : readU8 m2 4 = readU8 m2' 4 := by
    unfold readU8 byteAt; rw [h20 4 (by omega)]
  have g4 : readU32 m2 4 = readU32 m2' 4 := by
    unfold readU32 byteAt
    rw [h20 4 (by omega), h20 5 (by omega), h20 6 (by omega), h20 7 (by omega)]
  have g8 : readU32 m2 8 = readU32 m2' 8 := by
    unfold readU32 byteAt
    rw [h20 8 (by omega), h20 9 (by omega), h20 10 (by omega),
      h20 11 (by omega)]
  have g12 : readU32 m2 12 = readU32 m2' 12 := by
    unfold readU32 byteAt
    rw [h20 12 (by omega), h20 13 (by omega), h20 14 (by omega),
      h20 15 (by omega)]
  have g16 : readU32 m2 16 = readU32 m2' 16 := by
    unfold readU32 byteAt
    rw [h20 16 (by omega), h20 17 (by omega), h20 18 (by omega),
      h20 19 (by omega)]
  refine ⟨?_, ?_, ?_, ?_, ?_, ?_, ?_, ?_, ?_⟩
  · simp only [KV.key_value_open, KV.kv_expected_decode, KV.kv_error_decode,
      e0, e4, r4, r8, r12]
  · simp only [KV.key_value_get, KV.kv_expected_decode, KV.kv_error_decode,
      e0, e4, r4, r8, r12]
  · simp only [KV.key_value_set, KV.kv_expected_decode, KV.kv_error_decode,
      e0, e4, r4, r8, r12]
  · simp only [KV.key_value_delete, KV.kv_expected_decode,
      KV.kv_error_decode, e0, e4, r4, r8, r12]
  · simp only [KV.key_value_exists, KV.kv_expected_decode,
      KV.kv_error_decode, e0, e4, r4, r8, r12]
  · simp only [KV.key_value_get_keys, KV.kv_expected_decode,
      KV.kv_error_decode, e0, e4, r4, r8, r12]
  · simp only [Llm.llm_infer, Llm.llm_error_decode, f0, f4, g4, g8, g12, g16]
  · simp only [Llm.llm_generate_embeddings, Llm.llm_error_decode, f0, f4,
      g4, g8, g12]
  · intro w hw
    simp only [GoHttp.encodeWrites, List.mem_cons, List.mem_singleton,
      List.not_mem_nil, or_false] at hw
    rcases hw with rfl | rfl | rfl | rfl | rfl | rfl | rfl <;> norm_num

/-- C8 witness: both agreement hypotheses discharged at identical
memories. -/
theorem claim_C8_witness :
    KV.key_value_open zeroMem ⟨false, .ok 0⟩ ⟨0, 0⟩
      = KV.key_value_open zeroMem ⟨false, .ok 0⟩ ⟨0, 0⟩
  ∧ KV.key_value_get zeroMem ⟨false, .ok ⟨0, 0⟩⟩ ⟨0, 0⟩
      = KV.key_value_get zeroMem ⟨false, .ok ⟨0, 0⟩⟩ ⟨0, 0⟩
  ∧ KV.key_value_set zeroMem ⟨false, .ok ()⟩ ⟨0, 0⟩
      = KV.key_value_set zeroMem ⟨false, .ok ()⟩ ⟨0, 0⟩
  ∧ KV.key_value_delete zeroMem ⟨false, .ok ()⟩ ⟨0, 0⟩
      = KV.key_value_delete zeroMem ⟨false, .ok ()⟩ ⟨0, 0⟩
  ∧ KV.key_value_exists zeroMem ⟨false, .ok 0⟩ ⟨0, 0⟩
      = KV.key_value_exists zeroMem ⟨false, .ok 0⟩ ⟨0, 0⟩
  ∧ KV.key_value_get_keys zeroMem ⟨false, .ok ⟨0, 0⟩⟩ ⟨0, 0⟩
      = KV.key_value_get_keys zeroMem ⟨false, .ok ⟨0, 0⟩⟩ ⟨0, 0⟩
  ∧ Llm.llm_infer zeroMem ⟨false, .ok ⟨⟨0, 0⟩, 0, 0⟩⟩ ⟨0, 0⟩
      = Llm.llm_infer zeroMem ⟨false, .ok ⟨⟨0, 0⟩, 0, 0⟩⟩ ⟨0, 0⟩
  ∧ Llm.llm_generate_embeddings zeroMem ⟨false, .ok ⟨⟨0, 0⟩, 0⟩⟩ ⟨0, 0⟩
      = Llm.llm_generate_embeddings zeroMem ⟨false, .ok ⟨⟨0, 0⟩, 0⟩⟩ ⟨0, 0⟩
  ∧ (∀ w ∈ GoHttp.encodeWrites ⟨200, some (1, 2), none⟩, w.1 + 4 ≤ 56) :=
  claim_C8_return_area_bounds zeroMem zeroMem zeroMem zeroMem
    (fun i _ => rfl) (fun i _ => rfl) ⟨false, .ok 0⟩ ⟨false, .ok ⟨0, 0⟩⟩
    ⟨false, .ok ()⟩ ⟨0, 0⟩ ⟨false, .ok ⟨⟨0, 0⟩, 0, 0⟩⟩
    ⟨false, .ok ⟨⟨0, 0⟩, 0⟩⟩ ⟨0, 0⟩ ⟨200, some (1, 2), none⟩

/-- C9: in every wrapper that returns the error enum as its scalar result,
a decoded ok discriminant (0) produces the return value `(uint8_t)-1 = 255`
— not the header's `SUCCESS` constant 0 — and a decoded error discriminant
(1) produces the host-written error byte. -/
theorem claim_C9_success_sentinel (m : Mem) (junkR r0 : HttpResponse)
    (jb : Bool) (jn : Nat) (ju : OutboundRedis.UnitJunk)
    (jp : OutboundRedis.PayloadJunk) (js : OutboundRedis.S64Junk)
    (rp : Nat × Nat) (rn : Nat) :
    (readU8 m 0 = 0 →
      (GoWasiHttp.wasi_outbound_http_request m junkR r0).retVal = 255
      ∧ (NimWasiHttp.wasi_outbound_http_request m junkR jb jn r0).retVal = 255
      ∧ OutboundRedis.outbound_redis_publish m ju = 255
      ∧ OutboundRedis.outbound_redis_set m ju = 255
      ∧ (OutboundRedis.outbound_redis_get m jp rp).1 = 255
      ∧ (OutboundRedis.outbound_redis_incr m js rn).1 = 255
      ∧ (OutboundRedis.outbound_redis_del m js rn).1 = 255
      ∧ (OutboundRedis.outbound_redis_sadd m js rn).1 = 255
      ∧ (OutboundRedis.outbound_redis_srem m js rn).1 = 255
      ∧ (OutboundRedis.outbound_redis_smembers m jp rp).1 = 255
      ∧ (OutboundRedis.outbound_redis_execute m jp rp).1 = 255)
  ∧ (readU8 m 0 = 1 →
      (GoWasiHttp.wasi_outbound_http_request m junkR r0).retVal = readU8 m 8
      ∧ (NimWasiHttp.wasi_outbound_http_request m junkR jb jn r0).retVal
          = readU8 m 4
      ∧ OutboundRedis.outbound_redis_publish m ju = readU8 m 1
      ∧ OutboundRedis.outbound_redis_set m ju = readU8 m 1
      ∧ (OutboundRedis.outbound_redis_get m jp rp).1 = readU8 m 4
      ∧ (OutboundRedis.outbound_redis_incr m js rn).1 = readU8 m 8
      ∧ (OutboundRedis.outbound_redis_del m js rn).1 = readU8 m 8
      ∧ (OutboundRedis.outbound_redis_sadd m js rn).1 = readU8 m 8
      ∧ (OutboundRedis.outbound_redis_srem m js rn).1 = readU8 m 8
      ∧ (OutboundRedis.outbound_redis_smembers m jp rp).1 = readU8 m 4
      ∧ (OutboundRedis.outbound_redis_execute m jp rp).1 = readU8 m 4) := by
  have hg : readU32 m 0 % 256 = readU8 m 0 := readU32_mod256 m 0
  constructor <;> intro h <;>
    refine ⟨?_, ?_, ?_, ?_, ?_, ?_, ?_, ?_, ?_, ?_, ?_⟩ <;>
      simp [GoWasiHttp.wasi_outbound_http_request,
        NimWasiHttp.wasi_outbound_http_request,
        OutboundRedis.outbound_redis_publish,
        OutboundRedis.outbound_redis_set, OutboundRedis.outbound_redis_get,
        OutboundRedis.outbound_redis_incr, OutboundRedis.outbound_redis_del,
        OutboundRedis.outbound_redis_sadd, OutboundRedis.outbound_redis_srem,
        OutboundRedis.outbound_redis_smembers,
        OutboundRedis.outbound_redis_execute, hg, h]

/-- Return-area image with result tag 1 and error bytes 5, 3, 4 at offsets
1, 4 and 8. -/
def memC9Ex : Mem := fun i =>
  if i = 0 then 1 else if i = 1 then 5 else if i = 4 then 3
  else if i = 8 then 4 else 0

/-- C9 witness at concrete ok and error images. -/
theorem claim_C9_witness :
    OutboundRedis.outbound_redis_publish zeroMem ⟨false, 0⟩ = 255
  ∧ (OutboundRedis.outbound_redis_incr zeroMem ⟨false, 0⟩ 0).1 = 255
  ∧ (GoWasiHttp.wasi_outbound_http_request zeroMem ⟨0, none, none⟩
      ⟨0, none, none⟩).retVal = 255
  ∧ OutboundRedis.outbound_redis_publish memC9Ex ⟨false, 0⟩ = readU8 memC9Ex 1
  ∧ (OutboundRedis.outbound_redis_incr memC9Ex ⟨false, 0⟩ 0).1
      = readU8 memC9Ex 8
  ∧ (GoWasiHttp.wasi_outbound_http_request memC9Ex ⟨0, none, none⟩
      ⟨0, none, none⟩).retVal = readU8 memC9Ex 8 := by
  have hOk := (claim_C9_success_sentinel zeroMem ⟨0, none, none⟩
    ⟨0, none, none⟩ false 0 ⟨false, 0⟩ ⟨false, 0, 0⟩ ⟨false, 0⟩ (0, 0) 0).1
    (by decide)
  have hErr := (claim_C9_success_sentinel memC9Ex ⟨0, none, none⟩
    ⟨0, none, none⟩ false 0 ⟨false, 0⟩ ⟨false, 0, 0⟩ ⟨false, 0⟩ (0, 0) 0).2
    (by decide)
  exact ⟨hOk.2.2.1, hOk.2.2.2.2.2.1, hOk.1, hErr.2.2.1,
    hErr.2.2.2.2.2.1, hErr.1⟩

/-- C10: the `*ret0` out-parameter of `wasi_outbound_http_request`,
`outbound_redis_get` and `outbound_redis_incr` is assigned on every call —
its final value never depends on its prior content — and on the error path
it receives the ok interpretation of the result union, i.e. the error byte
overlaid on the uninitialized union bytes, not a valid decoded value. -/
theorem claim_C10_ret0_always_written (m : Mem) (junkR a b : HttpResponse)
    (jp : OutboundRedis.PayloadJunk) (pa pb : Nat × Nat)
    (js : OutboundRedis.S64Junk) (na nb : Nat) :
    ((GoWasiHttp.wasi_outbound_http_request m junkR a).ret0
      = (GoWasiHttp.wasi_outbound_http_request m junkR b).ret0)
  ∧ ((OutboundRedis.outbound_redis_get m jp pa).2
      = (OutboundRedis.outbound_redis_get m jp pb).2)
  ∧ ((OutboundRedis.outbound_redis_incr m js na).2
      = (OutboundRedis.outbound_redis_incr m js nb).2)
  ∧ (readU8 m 0 = 1 →
      (GoWasiHttp.wasi_outbound_http_request m junkR a).ret0
        = overlayStatusByte (readU8 m 8) junkR
      ∧ (OutboundRedis.outbound_redis_get m jp pa).2
        = (overlayLow32 (readU8 m 4) jp.okPtr, jp.okLen)
      ∧ (OutboundRedis.outbound_redis_incr m js na).2
        = overlayLow64 (readU8 m 8) js.okV) := by
  have hg : readU32 m 0 % 256 = readU8 m 0 := readU32_mod256 m 0
  refine ⟨rfl, rfl, rfl, ?_⟩
  intro h
  refine ⟨?_, ?_, ?_⟩ <;>
    simp [GoWasiHttp.wasi_outbound_http_request,
      OutboundRedis.outbound_redis_get, OutboundRedis.outbound_redis_incr,
      hg, h]

/-- C10 witness at the concrete error image. -/
theorem claim_C10_witness :
    ((GoWasiHttp.wasi_outbound_http_request memC9Ex ⟨7, none, none⟩
        ⟨1, none, none⟩).ret0
      = (GoWasiHttp.wasi_outbound_http_request memC9Ex ⟨7, none, none⟩
        ⟨2, some (3, 4), none⟩).ret0)
  ∧ (GoWasiHttp.wasi_outbound_http_request memC9Ex ⟨7, none, none⟩
        ⟨1, none, none⟩).ret0
      = overlayStatusByte (readU8 memC9Ex 8) ⟨7, none, none⟩
  ∧ (OutboundRedis.outbound_redis_incr memC9Ex ⟨false, 9⟩ 0).2
      = overlayLow64 (readU8 memC9Ex 8) 9 := by
  have h := claim_C10_ret0_always_written memC9Ex ⟨7, none, none⟩
    ⟨1, none, none⟩ ⟨2, some (3, 4), none⟩ ⟨false, 0, 0⟩ (0, 0) (0, 0)
    ⟨false, 9⟩ 0 0
  exact ⟨h.1, (h.2.2.2 (by decide)).1, (h.2.2.2 (by decide)).2.2⟩

end SpinAbi
